import Mathlib

/-!
# Verification of the PAI real-estate exploration/cartography core

Shallow embedding of the filtering, sorting, sampling, rendering and export
logic of `src/exploration.py` and `src/cartographie.py`, together with proofs
of the specification claims about them.

Python/pandas cell values are modelled by the tagged type `Cell`:
a cell is either an integer (`int`/`np.integer`), a float carried as a
rational (`float`/`np.float64` — the claims only exercise values that are
exactly representable), the IEEE NaN used by pandas for missing data, or a
string.  A dataframe row is an association list from column names to cells;
a column that is absent from the schema is simply absent from the list.
-/

inductive Cell where
  | nan : Cell
  | intc : Int → Cell
  | floatc : ℚ → Cell
  | strc : String → Cell
deriving DecidableEq, Repr

/-- A dataframe row: column name ↦ cell value.  `df.iat[row, col]` in the
source is modelled by looking the column name up in this list. -/
def Row : Type := List (String × Cell)

instance : DecidableEq Row := inferInstanceAs (DecidableEq (List (String × Cell)))
instance : Inhabited Row := ⟨([] : List (String × Cell))⟩

/-- `val(col_name)` in `RealEstateFilterProxy.filterAcceptsRow`: returns the
cell at the named column, or `None` when `_col` reports the column absent. -/
def val (r : Row) (name : String) : Option Cell :=
  (show List (String × Cell) from r).lookup name

/-- Python truthiness of a cell value (`bool(x)`): `None` handled separately;
NaN is truthy, `0`/`0.0` and the empty string are falsy. -/
def pyTruthy : Cell → Bool
  | Cell.nan => true
  | Cell.intc n => n ≠ 0
  | Cell.floatc q => q ≠ 0
  | Cell.strc s => s ≠ ""

/-- Decimal digits of a nonnegative rational with denominator dividing a power
of ten: the least number of fractional digits needed, tried up to 30. -/
def decDigits (q : ℚ) : Option Nat :=
  (List.range 30).find? (fun k => (q * 10 ^ k).den = 1)

/-- Left-pad a numeral string with zeros to the given width. -/
def padZeros (w : Nat) (s : String) : String :=
  if s.length < w then String.mk (List.replicate (w - s.length) '0') ++ s else s

/-- Python `str()` of a float value (`repr` of a float whose value is an exact
short decimal; the claims never exercise non-terminating decimals, for which
we fall back to the plain fraction text). -/
def floatRepr (q : ℚ) : String :=
  match decDigits |q| with
  | some 0 => (if q < 0 then "-" else "") ++ toString |q|.num ++ ".0"
  | some (k + 1) =>
      let m := (|q| * 10 ^ (k + 1)).num.toNat
      (if q < 0 then "-" else "") ++ toString (m / 10 ^ (k + 1)) ++ "." ++
        padZeros (k + 1) (toString (m % 10 ^ (k + 1)))
  | none => toString q

/-- Python `str()` of a cell value (`str(val)` in the source); `str(nan)` is
the literal text `"nan"`. -/
def pyStr : Cell → String
  | Cell.nan => "nan"
  | Cell.intc n => toString n
  | Cell.floatc q => floatRepr q
  | Cell.strc s => s

/-- `str(val(...) or "")` in the source: `None`, `0`, `0.0` and `""` are falsy
and collapse to the empty string; NaN is truthy and stringifies to `"nan"`. -/
def pyStrOr (v : Option Cell) : String :=
  match v with
  | none => ""
  | some c => if pyTruthy c then pyStr c else ""

/-- ASCII lower-casing of a string to a character list (Python `str.lower`). -/
def lowerStr (s : String) : List Char :=
  s.data.map Char.toLower

/-- Does `hay` start with `needle` (on character lists)? -/
def chStarts : List Char → List Char → Bool
  | [], _ => true
  | _ :: _, [] => false
  | a :: as, b :: bs => a = b && chStarts as bs

/-- Is `needle` a contiguous substring of `hay` (Python `needle in hay`)? -/
def subListAux (needle : List Char) : List Char → Bool
  | [] => needle.isEmpty
  | c :: rest => chStarts needle (c :: rest) || subListAux needle rest

/-- Case-insensitive containment: `needle.lower() in hay.lower()`. -/
def containsCI (hay needle : String) : Bool :=
  subListAux (lowerStr needle) (lowerStr hay)

/-- "value < bound" for a numeric comparison in `filterAcceptsRow`; every
comparison against NaN is false in Python, so NaN never triggers the
`return False` branches. -/
def cellLt : Cell → ℚ → Bool
  | Cell.intc n, b => decide ((n : ℚ) < b)
  | Cell.floatc q, b => decide (q < b)
  | Cell.nan, _ => false
  | Cell.strc _, _ => false

/-- "value > bound" for a numeric comparison in `filterAcceptsRow`. -/
def cellGt : Cell → ℚ → Bool
  | Cell.intc n, b => decide (b < (n : ℚ))
  | Cell.floatc q, b => decide (b < q)
  | Cell.nan, _ => false
  | Cell.strc _, _ => false

/-- `isinstance(val, (int, float, np.integer, np.floating))`: NaN is a float
and passes the check; strings do not. -/
def isNumericCell : Cell → Bool
  | Cell.strc _ => false
  | _ => true

/-- One numeric min/max block of `RealEstateFilterProxy.filterAcceptsRow`
(e.g. lines 131–136 for Price): when the value is `None` (absent column) or
not a numeric instance the block is skipped, i.e. the row passes; otherwise
the row is rejected when it is below a set minimum or above a set maximum. -/
def rangeCheck (v : Option Cell) (mn mx : Option ℚ) : Bool :=
  match v with
  | none => true
  | some c =>
    if isNumericCell c then
      if mn.any (fun m => cellLt c m) then false
      else if mx.any (fun m => cellGt c m) then false
      else true
    else true

/-- One substring block of `filterAcceptsRow` (City lines 160–162, Address
lines 168–170): `text = str(val or "")`, reject when the needle is non-empty
and `needle.lower() not in text.lower()`. -/
def textSubstrCheck (v : Option Cell) (needle : String) : Bool :=
  if needle = "" then true else containsCI (pyStrOr v) needle

/-- The exact-match State block of `filterAcceptsRow` (lines 164–166):
reject when the literal is non-empty and the stringified value differs. -/
def exactCheck (v : Option Cell) (lit : String) : Bool :=
  if lit = "" then true else pyStrOr v == lit

/-- The proxy's filter configuration (`RealEstateFilterProxy.__init__`):
`None` bounds and empty strings mean "disabled". -/
structure FilterState where
  min_price : Option ℚ
  max_price : Option ℚ
  min_space : Option ℚ
  max_space : Option ℚ
  min_beds : Option ℚ
  max_beds : Option ℚ
  min_income : Option ℚ
  max_income : Option ℚ
  city_substr : String
  state_exact : String
  search_text : String
deriving DecidableEq, Repr

/-- The default filter state (everything disabled). -/
def noFilter : FilterState :=
  ⟨none, none, none, none, none, none, none, none, "", "", ""⟩

/-- `RealEstateFilterProxy.filterAcceptsRow`: the conjunction of the four
numeric range blocks, the City substring block, the State exact block and the
Address substring block, in source order (early `return False` ≡ `&&`). -/
def filterAcceptsRow (fs : FilterState) (r : Row) : Bool :=
  rangeCheck (val r "Price") fs.min_price fs.max_price &&
  rangeCheck (val r "Living Space") fs.min_space fs.max_space &&
  rangeCheck (val r "Beds") fs.min_beds fs.max_beds &&
  rangeCheck (val r "Median Household Income") fs.min_income fs.max_income &&
  textSubstrCheck (val r "City") fs.city_substr &&
  exactCheck (val r "State") fs.state_exact &&
  textSubstrCheck (val r "Address") fs.search_text

/-- The VisibleRowSet produced by the proxy: the source-row indices accepted
by `filterAcceptsRow`, in original dataset order. -/
def visibleRows (fs : FilterState) (ds : List Row) : List Nat :=
  (List.range ds.length).filter (fun i =>
    match ds[i]? with
    | some r => filterAcceptsRow fs r
    | none => false)

/-- Values read from the filter widgets by `ExplorationTab._on_filters_changed`
(spin boxes are nonnegative reals; line edits arbitrary text). -/
structure UIFilters where
  min_price : ℚ
  max_price : ℚ
  min_space : ℚ
  max_space : ℚ
  min_beds : ℚ
  max_beds : ℚ
  min_income : ℚ
  max_income : ℚ
  city : String
  state : String
  search : String

/-- Python `str.strip()`: drop leading and trailing whitespace. -/
def stripStr (s : String) : String :=
  String.mk ((s.data.dropWhile Char.isWhitespace).reverse.dropWhile
    Char.isWhitespace).reverse

/-- `spin.value() or None`: a zero spin-box value is falsy and becomes `None`. -/
def pyOrNone (v : ℚ) : Option ℚ :=
  if v = 0 then none else some v

/-- The redundant `if self.proxy.max_x == 0: self.proxy.max_x = None` fix-up
applied to the max bounds in `_on_filters_changed`. -/
def zeroFix (o : Option ℚ) : Option ℚ :=
  if o = some 0 then none else o

/-- `ExplorationTab._on_filters_changed`: push the widget values into the
proxy's filter state. -/
def onFiltersChanged (u : UIFilters) : FilterState where
  min_price := pyOrNone u.min_price
  max_price := zeroFix (pyOrNone u.max_price)
  min_space := pyOrNone u.min_space
  max_space := zeroFix (pyOrNone u.max_space)
  min_beds := pyOrNone u.min_beds
  max_beds := zeroFix (pyOrNone u.max_beds)
  min_income := pyOrNone u.min_income
  max_income := zeroFix (pyOrNone u.max_income)
  city_substr := stripStr u.city
  state_exact := stripStr u.state
  search_text := stripStr u.search

/-- The widget state after `ExplorationTab._reset_filters`: every spin box set
to 0 and every text widget cleared. -/
def resetUI : UIFilters :=
  ⟨0, 0, 0, 0, 0, 0, 0, 0, "", "", ""⟩

/-!
## Cartography filter (`CartographyDynamic.filtered_df`, src/cartographie.py)

The dynamic-map tab refilters with pandas boolean indexing.  Pandas semantics
modelled here: `df[col]` raises `KeyError` when the column is absent (the
whole filter then fails, `none`); `series >= x` is elementwise, `False` on
NaN, and raises `TypeError` on a string cell; `series == x` never raises and
is `False` on any non-string cell; `.astype(str).str.contains(c, case=False,
na=False)` stringifies each cell (NaN becomes `"nan"`) and tests containment
case-insensitively (the claims use needles without regex metacharacters).
-/

/-- Elementwise `cell >= bound` of a pandas numeric comparison. -/
def pandasGE : Option Cell → ℚ → Option Bool
  | none, _ => none
  | some (Cell.intc n), b => some (decide (b ≤ (n : ℚ)))
  | some (Cell.floatc q), b => some (decide (b ≤ q))
  | some Cell.nan, _ => some false
  | some (Cell.strc _), _ => none

/-- Elementwise `cell <= bound` of a pandas numeric comparison. -/
def pandasLE : Option Cell → ℚ → Option Bool
  | none, _ => none
  | some (Cell.intc n), b => some (decide ((n : ℚ) ≤ b))
  | some (Cell.floatc q), b => some (decide (q ≤ b))
  | some Cell.nan, _ => some false
  | some (Cell.strc _), _ => none

/-- Elementwise mask of `df["City"].astype(str).str.contains(c, case=False)`. -/
def pandasCityMask (v : Option Cell) (needle : String) : Option Bool :=
  match v with
  | none => none
  | some c => some (containsCI (pyStr c) needle)

/-- Elementwise mask of `df["State"] == state`. -/
def pandasStateMask (v : Option Cell) (lit : String) : Option Bool :=
  match v with
  | none => none
  | some (Cell.strc s) => some (s == lit)
  | some _ => some false

/-- `df[mask]`: keep the rows whose mask entry is `True`. -/
def pdWhere (rows : List Row) (mask : List Bool) : List Row :=
  (rows.zip mask).filterMap (fun rb => if rb.2 then some rb.1 else none)

/-- One pandas boolean-indexing step `df = df[f(df)]`; fails when computing
the mask raises on some row. -/
def pdFilter (rows : List Row) (f : Row → Option Bool) : Option (List Row) :=
  (rows.mapM f).map (pdWhere rows)

/-- The filter-widget values of `CartographyDynamic` (spin values and raw
texts, before the method's own `or None` / `strip()` handling). -/
structure CartoFilters where
  min_price : ℚ
  max_price : ℚ
  min_beds : ℚ
  max_beds : ℚ
  city : String
  state : String

/-- `CartographyDynamic.filtered_df`: sequentially applies the price, beds,
city and state filters with pandas boolean indexing; a bound is skipped when
its spin value is falsy (`x or None`, then `if x:`), a text filter when its
stripped text is empty. -/
def filtered_df (cf : CartoFilters) (rows : List Row) : Option (List Row) := do
  let d1 ← if cf.min_price ≠ 0 then
      pdFilter rows (fun r => pandasGE (val r "Price") cf.min_price)
    else pure rows
  let d2 ← if cf.max_price ≠ 0 then
      pdFilter d1 (fun r => pandasLE (val r "Price") cf.max_price)
    else pure d1
  let d3 ← if cf.min_beds ≠ 0 then
      pdFilter d2 (fun r => pandasGE (val r "Beds") cf.min_beds)
    else pure d2
  let d4 ← if cf.max_beds ≠ 0 then
      pdFilter d3 (fun r => pandasLE (val r "Beds") cf.max_beds)
    else pure d3
  let d5 ← if stripStr cf.city ≠ "" then
      pdFilter d4 (fun r => pandasCityMask (val r "City") (stripStr cf.city))
    else pure d4
  let d6 ← if stripStr cf.state ≠ "" then
      pdFilter d5 (fun r => pandasStateMask (val r "State") (stripStr cf.state))
    else pure d5
  pure d6

/-- A cartography filter state with everything disabled. -/
def noCartoFilter : CartoFilters := ⟨0, 0, 0, 0, "", ""⟩

/-!
## Table display and header-click sorting

`PandasModel.data` renders each cell as a string for `Qt.DisplayRole`:
integers as `f"{int(val):,}".replace(',', ' ')` and floats as
`f"{float(val):,.2f}".replace(',', ' ').replace('.00', '')` (the only `'.'`
in such a string is the decimal point, so the replace exactly strips an
all-zero fraction); anything else via `str`.  `ExplorationTab` enables header
sorting on the `QSortFilterProxyModel` (`setSortingEnabled(True)`), whose
documented behaviour is a stable sort (`std::stable_sort`) comparing the
display-role values; since `data` returns strings, the comparison is
case-sensitive lexicographic string comparison by character code.  The stable
sort is modelled denotationally: indices tagged with their pre-sort position
are sorted by the total order (display key, then position).
-/

/-- Insert the thousands separator every three digits, over the reversed
digit list of a numeral. -/
def groupAux (sep : Char) : List Char → List Char
  | a :: b :: c :: d :: rest => a :: b :: c :: sep :: groupAux sep (d :: rest)
  | l => l

/-- `f"{m:,}"` for a natural number, with the given separator character. -/
def groupNat (sep : Char) (m : Nat) : String :=
  String.mk (groupAux sep (toString m).data.reverse).reverse

/-- `f"{n:,}"` for an integer, with the given separator character. -/
def groupInt (sep : Char) (n : Int) : String :=
  if n < 0 then "-" ++ groupNat sep n.natAbs else groupNat sep n.natAbs

/-- Two-digit zero-padded numeral. -/
def pad2 (m : Nat) : String :=
  if m < 10 then "0" ++ toString m else toString m

/-- `f"{float(val):,.2f}".replace(',', ' ').replace('.00', '')`: round to two
decimals (the claims only exercise exact values, so the rounding-mode detail
of binary floats is immaterial), group the integer part with spaces, and drop
an all-zero fraction. -/
def floatFmt2 (q : ℚ) : String :=
  let c : Int := round (q * 100)
  let m := c.natAbs
  let sign := if c < 0 then "-" else ""
  if m % 100 = 0 then sign ++ groupNat ' ' (m / 100)
  else sign ++ groupNat ' ' (m / 100) ++ "." ++ pad2 (m % 100)

/-- `PandasModel.data` for the display role (lines 61–72). -/
def displayCell : Cell → String
  | Cell.intc n => groupInt ' ' n
  | Cell.floatc q => floatFmt2 q
  | Cell.nan => "nan"
  | Cell.strc s => s

/-- The display-role string Qt compares when sorting source row `i` on the
named column (an invalid variant compares as the empty string). -/
def dispKey (ds : List Row) (col : String) (i : Nat) : String :=
  match ds[i]?.bind (fun r => val r col) with
  | some c => displayCell c
  | none => ""

/-- Lexicographic strict comparison of character lists by code point; the
comparison `QString` applies to display strings. -/
def lexLtb : List Char → List Char → Bool
  | [], [] => false
  | [], _ :: _ => true
  | _ :: _, [] => false
  | a :: as, b :: bs => if a < b then true else if b < a then false else lexLtb as bs

/-- Case-sensitive lexicographic string comparison by character code. -/
def strLtb (s t : String) : Bool := lexLtb s.data t.data

theorem lexLtb_irrefl : ∀ l : List Char, lexLtb l l = false
  | [] => rfl
  | a :: as => by simp [lexLtb, lexLtb_irrefl as]

theorem lexLtb_trans : ∀ x y z : List Char,
    lexLtb x y = true → lexLtb y z = true → lexLtb x z = true := by
  intro x
  induction x with
  | nil =>
    intro y z hxy hyz
    rcases z with _ | ⟨c, cs⟩
    · rcases y with _ | ⟨b, bs⟩ <;> simp [lexLtb] at hyz
    · rfl
  | cons a as ih =>
    intro y z hxy hyz
    rcases y with _ | ⟨b, bs⟩
    · simp [lexLtb] at hxy
    rcases z with _ | ⟨c, cs⟩
    · simp [lexLtb] at hyz
    simp only [lexLtb] at hxy hyz ⊢
    by_cases hab : a < b
    · by_cases hbc : b < c
      · simp [lt_trans hab hbc]
      · by_cases hcb : c < b
        · simp [hbc, hcb] at hyz
        · have hb : b = c := le_antisymm (not_lt.mp hcb) (not_lt.mp hbc)
          subst hb
          simp [hab]
    · by_cases hba : b < a
      · simp [hab, hba] at hxy
      · have hab' : a = b := le_antisymm (not_lt.mp hba) (not_lt.mp hab)
        subst hab'
        simp only [lt_irrefl, if_false] at hxy
        by_cases hac : a < c
        · simp [hac]
        · by_cases hca : c < a
          · simp [hac, hca] at hyz
          · have hac' : a = c := le_antisymm (not_lt.mp hca) (not_lt.mp hac)
            subst hac'
            simp only [lt_irrefl, if_false] at hyz ⊢
            exact ih bs cs hxy hyz

theorem lexLtb_conn : ∀ x y : List Char,
    lexLtb x y = false → lexLtb y x = false → x = y := by
  intro x
  induction x with
  | nil =>
    intro y hxy _
    rcases y with _ | ⟨b, bs⟩
    · rfl
    · simp [lexLtb] at hxy
  | cons a as ih =>
    intro y hxy hyx
    rcases y with _ | ⟨b, bs⟩
    · simp [lexLtb] at hyx
    simp only [lexLtb] at hxy hyx
    by_cases hab : a < b
    · simp [hab] at hxy
    · by_cases hba : b < a
      · simp [hab, hba] at hyx
      · have hab' : a = b := le_antisymm (not_lt.mp hba) (not_lt.mp hab)
        subst hab'
        simp only [lt_irrefl, if_false] at hxy hyx
        rw [ih bs hxy hyx]

theorem strLtb_irrefl (s : String) : strLtb s s = false :=
  lexLtb_irrefl s.data

theorem strLtb_trans (x y z : String) :
    strLtb x y = true → strLtb y z = true → strLtb x z = true :=
  lexLtb_trans x.data y.data z.data

theorem strLtb_conn (x y : String) :
    strLtb x y = false → strLtb y x = false → x = y := by
  intro h1 h2
  have h := lexLtb_conn x.data y.data h1 h2
  cases x; cases y
  exact congrArg String.mk h

/-- The total order underlying a stable sort: strictly smaller key first
(under the strict Bool comparison `ltb`), ties broken by the pre-sort
position.  A stable sort's output is exactly the input sorted by this
order. -/
def stableRel {α κ : Type} [DecidableEq κ] (ltb : κ → κ → Bool) (key : α → κ)
    (pos : α → Nat) (a b : α) : Prop :=
  ltb (key a) (key b) = true ∨ (key a = key b ∧ pos a ≤ pos b)

instance {α κ : Type} [DecidableEq κ] (ltb : κ → κ → Bool) (key : α → κ)
    (pos : α → Nat) : DecidableRel (stableRel ltb key pos) := fun a b =>
  inferInstanceAs
    (Decidable (ltb (key a) (key b) = true ∨ (key a = key b ∧ pos a ≤ pos b)))

theorem stableRel_isTotal {α κ : Type} [DecidableEq κ] (ltb : κ → κ → Bool)
    (key : α → κ) (pos : α → Nat)
    (hconn : ∀ x y, ltb x y = false → ltb y x = false → x = y) :
    IsTotal α (stableRel ltb key pos) := by
  constructor
  intro a b
  cases hab : ltb (key a) (key b)
  · cases hba : ltb (key b) (key a)
    · have h := hconn _ _ hab hba
      rcases Nat.le_total (pos a) (pos b) with hp | hp
      · exact Or.inl (Or.inr ⟨h, hp⟩)
      · exact Or.inr (Or.inr ⟨h.symm, hp⟩)
    · exact Or.inr (Or.inl hba)
  · exact Or.inl (Or.inl hab)

theorem stableRel_isTrans {α κ : Type} [DecidableEq κ] (ltb : κ → κ → Bool)
    (key : α → κ) (pos : α → Nat)
    (htrans : ∀ x y z, ltb x y = true → ltb y z = true → ltb x z = true) :
    IsTrans α (stableRel ltb key pos) := by
  constructor
  intro a b c hab hbc
  rcases hab with hab | ⟨hab, hab'⟩
  · rcases hbc with hbc | ⟨hbc, _⟩
    · exact Or.inl (htrans _ _ _ hab hbc)
    · exact Or.inl (hbc ▸ hab)
  · rcases hbc with hbc | ⟨hbc, hbc'⟩
    · exact Or.inl (hab ▸ hbc)
    · exact Or.inr ⟨hab.trans hbc, hab'.trans hbc'⟩

/-- Every stable sort is the sort by (key, pre-sort position): two tagged
elements with equal keys appear in the output in position order. -/
theorem insertionSort_stableRel_stable {κ : Type} [DecidableEq κ]
    (ltb : κ → κ → Bool)
    (hirr : ∀ x, ltb x x = false)
    (htrans : ∀ x y z, ltb x y = true → ltb y z = true → ltb x z = true)
    (hconn : ∀ x y, ltb x y = false → ltb y x = false → x = y)
    (key : Nat × Nat → κ) (l : List (Nat × Nat)) (x y : Nat × Nat)
    (hx : x ∈ l) (hy : y ∈ l) (hpos : x.1 < y.1) (hkey : key x = key y) :
    ∃ i j : Fin (List.insertionSort (stableRel ltb key Prod.fst) l).length,
      i < j ∧ (List.insertionSort (stableRel ltb key Prod.fst) l).get i = x ∧
        (List.insertionSort (stableRel ltb key Prod.fst) l).get j = y := by
  haveI := stableRel_isTotal ltb key (Prod.fst : Nat × Nat → Nat) hconn
  haveI := stableRel_isTrans ltb key (Prod.fst : Nat × Nat → Nat) htrans
  have hsorted := List.sorted_insertionSort (stableRel ltb key Prod.fst) l
  have hxo : x ∈ List.insertionSort (stableRel ltb key Prod.fst) l :=
    (List.mem_insertionSort _).mpr hx
  have hyo : y ∈ List.insertionSort (stableRel ltb key Prod.fst) l :=
    (List.mem_insertionSort _).mpr hy
  obtain ⟨i, hi⟩ := List.mem_iff_get.mp hxo
  obtain ⟨j, hj⟩ := List.mem_iff_get.mp hyo
  have hxy : x ≠ y := by
    intro h
    rw [h] at hpos
    exact lt_irrefl _ hpos
  have hij : i ≠ j := by
    intro h
    exact hxy (by rw [← hi, ← hj, h])
  rcases lt_or_gt_of_ne hij with h | h
  · exact ⟨i, j, h, hi, hj⟩
  · exfalso
    have hrel := hsorted.rel_get_of_lt h
    rw [hi, hj] at hrel
    rcases hrel with hlt | ⟨_, hle⟩
    · rw [hkey, hirr] at hlt
      exact Bool.false_ne_true hlt
    · exact absurd hpos (not_lt.mpr hle)

/-- The comparison used for a header-click sort on the named column:
ascending (or descending) in the display string, stably. -/
def dispRel (ds : List Row) (col : String) : Bool → (Nat × Nat) → (Nat × Nat) → Prop
  | true => stableRel strLtb (fun p => dispKey ds col p.2) Prod.fst
  | false => stableRel (fun s t => strLtb t s) (fun p => dispKey ds col p.2) Prod.fst

instance (ds : List Row) (col : String) (asc : Bool) : DecidableRel (dispRel ds col asc) := by
  cases asc
  · exact inferInstanceAs (DecidableRel (stableRel (fun s t => strLtb t s)
      (fun p : Nat × Nat => dispKey ds col p.2) Prod.fst))
  · exact inferInstanceAs (DecidableRel (stableRel strLtb
      (fun p : Nat × Nat => dispKey ds col p.2) Prod.fst))

/-- The stable Qt header sort on the visible rows: tag each visible index
with its pre-sort position, sort by (display key, position). -/
def qtSortPairs (ds : List Row) (col : String) (asc : Bool) (vis : List Nat) :
    List (Nat × Nat) :=
  List.insertionSort (dispRel ds col asc) vis.enum

/-- The visible-row order shown by the table after a header-click sort. -/
def qtSortVisible (ds : List Row) (col : String) (asc : Bool) (vis : List Nat) :
    List Nat :=
  (qtSortPairs ds col asc vis).map Prod.snd

/-!
## Deterministic sampling (`CartographyTab.generate_map`)

`generate_map` draws `df_f.sample(n, random_state=42)` when `n > 0` and the
visible row count exceeds `n`.  `DataFrame.sample` is modelled by its
documented contract: a pseudo-random selection of `n` distinct row positions
without replacement; with `random_state` given, the generator is seeded from
it and the ambient generator state is ignored, otherwise the ambient state
drives the draw.  The selection procedure is modelled as a seeded
shuffle-and-take: order the positions by an LCG-derived key (ties by
position) and take the first `n`. -/

/-- One step of a linear congruential generator (glibc constants). -/
def lcg (s : Nat) : Nat := (s * 1103515245 + 12345) % 2 ^ 31

/-- The pseudo-random key attached to position `p` under `seed`. -/
def sampleKey (seed p : Nat) : Nat := lcg (seed + 1000003 * p)

/-- The seeded shuffle of the positions `0, …, len-1`. -/
def sampleOrder (seed len : Nat) : List Nat :=
  List.insertionSort
    (stableRel (fun a b : Nat => decide (a < b)) (sampleKey seed) id)
    (List.range len)

/-- Model of `rows.sample(n, random_state=rState)` acting on the visible-index
list, in an ambient generator state `gState`. -/
def pdSample (gState : Nat) (rState : Option Nat) (n : Nat) (vis : List Nat) :
    List Nat :=
  let seed := rState.getD gState
  ((sampleOrder seed vis.length).take n).map (fun p => vis.getD p 0)

/-- The row selection of `CartographyTab.generate_map` (lines 371–373):
sample with the fixed seed 42 when `n > 0` and more than `n` rows are
visible, otherwise keep every visible row. -/
def generateMapSelect (gState n : Nat) (vis : List Nat) : List Nat :=
  if 0 < n ∧ n < vis.length then pdSample gState (some 42) n vis else vis

/-!
## Map rendering

Folium is modelled by its documented contract: `folium.Map(location, tiles,
zoom_start)` plus markers added to one `MarkerCluster` yield a self-contained
artifact; `folium.Marker(location, …)` validates its coordinates and raises
`ValueError` when a coordinate is not interpretable as a finite number (NaN
and non-numeric strings included).  Python `float(x)` is modelled by
`parseFloatCell`: it succeeds on ints and floats, returns NaN on NaN, parses
sign + digits with an optional decimal fraction from strings (`"nan"`
included; exponent forms and infinities are not exercised by the claims), and
raises otherwise.
-/

/-- Is the character an ASCII digit? -/
def isDigitCh (c : Char) : Bool := '0' ≤ c && c ≤ '9'

/-- Value of a digit list read in base 10. -/
def digitsToNat (cs : List Char) : Nat :=
  cs.foldl (fun a c => a * 10 + (c.toNat - '0'.toNat)) 0

/-- Parse an unsigned decimal numeral `digits [. digits]` (at least one digit
overall), the body of a Python `float()` literal. -/
def parseUnsigned (cs : List Char) : Option ℚ :=
  let intD := cs.takeWhile isDigitCh
  let rest := cs.dropWhile isDigitCh
  match rest with
  | [] => if intD.isEmpty then none else some (digitsToNat intD)
  | '.' :: fr =>
      let frD := fr.takeWhile isDigitCh
      let rest2 := fr.dropWhile isDigitCh
      if rest2.isEmpty && !(intD.isEmpty && frD.isEmpty) then
        some ((digitsToNat intD : ℚ) + (digitsToNat frD : ℚ) / 10 ^ frD.length)
      else none
  | _ => none

/-- Python `float(s)` on a string: optional sign, decimal numeral, or the
special text `"nan"`; `none` models the raised `ValueError`. -/
def pyFloatStr (s : String) : Option Cell :=
  let t := String.mk (lowerStr (stripStr s))
  if t = "nan" || t = "+nan" || t = "-nan" then some Cell.nan
  else
    match t.data with
    | '-' :: rest => (parseUnsigned rest).map (fun q => Cell.floatc (-q))
    | '+' :: rest => (parseUnsigned rest).map (fun q => Cell.floatc q)
    | cs => (parseUnsigned cs).map (fun q => Cell.floatc q)

/-- Python `float(cell)`; `none` models a raised `TypeError`/`ValueError`. -/
def parseFloatCell : Cell → Option Cell
  | Cell.intc n => some (Cell.floatc n)
  | Cell.floatc q => some (Cell.floatc q)
  | Cell.nan => some Cell.nan
  | Cell.strc s => pyFloatStr s

/-- One rendered marker: coordinates and popup text. -/
structure MarkerPt where
  lat : ℚ
  lon : ℚ
  popup : String
deriving DecidableEq, Repr

/-- One rendered map document. -/
structure MapArtifact where
  centerLat : ℚ
  centerLon : ℚ
  zoom : Nat
  tiles : String
  markers : List MarkerPt
deriving DecidableEq, Repr

/-- `cartographie.fmt_price`: `f"${x:,.0f}"` guarded by `try/except` that
falls back to `"$0"`; formatting NaN yields the text `"$nan"`. -/
def fmt_price : Cell → String
  | Cell.intc n => "$" ++ groupInt ',' n
  | Cell.floatc q => "$" ++ groupInt ',' (round q)
  | Cell.nan => "$nan"
  | Cell.strc _ => "$0"

/-- `row.get(name, default)` of a pandas row. -/
def rowGetD (r : Row) (name : String) (d : Cell) : Cell :=
  (val r name).getD d

/-- The popup HTML built in `CartographyDynamic.update_map` (lines 133–139);
every field falls back to a default, so this never raises. -/
def updatePopup (r : Row) : String :=
  "<b>" ++ pyStr (rowGetD r "Address" (Cell.strc "")) ++ "</b><br>" ++
  pyStr (rowGetD r "City" (Cell.strc "")) ++ ", " ++
  pyStr (rowGetD r "State" (Cell.strc "")) ++ " (" ++
  pyStr (rowGetD r "Zip Code" (Cell.strc "")) ++ ")<br>Price: " ++
  fmt_price (rowGetD r "Price" (Cell.intc 0)) ++ "<br>Beds: " ++
  pyStr (rowGetD r "Beds" (Cell.strc "?")) ++ " | Baths: " ++
  pyStr (rowGetD r "Baths" (Cell.strc "?")) ++ " | Living Space: " ++
  pyStr (rowGetD r "Living Space" (Cell.strc "?")) ++ " ft²"

/-- One iteration of the marker loop of `update_map` (lines 126–140): the
inner `try` covers only the two `float()` conversions, so a conversion
failure skips the row (`continue`, inner `none`); a NaN coordinate converts
fine but then makes `folium.Marker` raise outside the inner `try`, aborting
the whole update (outer `none`). -/
def updateMapRow (r : Row) : Option (Option MarkerPt) :=
  match (val r "Latitude").bind parseFloatCell with
  | none => some none
  | some la =>
    match (val r "Longitude").bind parseFloatCell with
    | none => some none
    | some lo =>
      match la, lo with
      | Cell.floatc a, Cell.floatc b => some (some ⟨a, b, updatePopup r⟩)
      | _, _ => none

/-- The marker loop of `update_map` over the (already capped) rows. -/
def updateMapLoop : List Row → Option (List MarkerPt)
  | [] => some []
  | r :: rest => do
      let m? ← updateMapRow r
      let ms ← updateMapLoop rest
      pure (match m? with | some m => m :: ms | none => ms)

/-- The empty map produced by the empty-result branch of `update_map`
(line 115): centered on the continental-USA default, default zoom. -/
def emptyMapArtifact : MapArtifact :=
  ⟨39.5, -98.35, 4, "CartoDB positron", []⟩

/-- `CartographyDynamic.update_map` acting on the filtered rows: an empty
result or a dataset without coordinate columns yields the default empty map;
otherwise at most 3000 rows are rendered; `none` models an exception caught
by the outer handler (no artifact produced). -/
def updateMap (cols : List String) (visRows : List Row) : Option MapArtifact :=
  if visRows.isEmpty || !(cols.contains "Latitude" && cols.contains "Longitude") then
    some emptyMapArtifact
  else
    (updateMapLoop (visRows.take 3000)).map
      (fun ms => { emptyMapArtifact with markers := ms })

/-- `exploration.CartographyTab.generate_map`'s `fmt_price` (line 376) has no
`try/except`: `f"${x:,.0f}"` raises on a string value. -/
def fmtPriceStrict : Cell → Option String
  | Cell.intc n => some ("$" ++ groupInt ',' n)
  | Cell.floatc q => some ("$" ++ groupInt ',' (round q))
  | Cell.nan => some "$nan"
  | Cell.strc _ => none

/-- Coordinates accepted by `folium.Marker` without raising: values already
numeric (ints and floats); NaN and strings raise `ValueError` in the
validation. -/
def foliumLoc : Cell → Cell → Option (ℚ × ℚ)
  | Cell.intc a, Cell.intc b => some (a, b)
  | Cell.intc a, Cell.floatc b => some (a, b)
  | Cell.floatc a, Cell.intc b => some (a, b)
  | Cell.floatc a, Cell.floatc b => some (a, b)
  | _, _ => none

/-- One iteration of the marker loop of `generate_map` (lines 382–390): every
column is read with bare indexing (`KeyError` when absent), the price is
formatted unguarded, and the marker gets the raw cell values; there is no
`try/except` anywhere in `generate_map`, so any failure aborts the render. -/
def generateMapRow (r : Row) : Option MarkerPt := do
  let addr ← val r "Address"
  let city ← val r "City"
  let state ← val r "State"
  let zipc ← val r "Zip Code"
  let price ← val r "Price"
  let ps ← fmtPriceStrict price
  let beds ← val r "Beds"
  let baths ← val r "Baths"
  let ls ← val r "Living Space"
  let lat ← val r "Latitude"
  let lon ← val r "Longitude"
  let loc ← foliumLoc lat lon
  pure ⟨loc.1, loc.2,
    "<b>" ++ pyStr addr ++ "</b><br>" ++ pyStr city ++ ", " ++ pyStr state ++
    " (" ++ pyStr zipc ++ ")<br>Price: " ++ ps ++ "<br>Beds: " ++ pyStr beds ++
    " | Baths: " ++ pyStr baths ++ " | Living Space: " ++ pyStr ls ++ " ft²"⟩

/-- The marker loop of `generate_map` over the sampled rows; `none` models an
uncaught exception escaping `generate_map` (render aborted, no artifact). -/
def generateMapMarkers (rows : List Row) : Option (List MarkerPt) :=
  rows.mapM generateMapRow

/-!
## Export (`ExplorationTab.export_csv`)

The export walks the proxy's visible rows in proxy order, maps each back to
its source index and materializes `df.iloc[rows]` — a pure projection. -/

/-- `df_all.iloc[rows]`: the records at the visible indices, in visible
order (every index produced by `mapToSource` is in range). -/
def exportRows (ds : List Row) (vis : List Nat) : List Row :=
  vis.filterMap (fun i => ds[i]?)

/-- The numeric value of a cell, when it has one. -/
def numValue : Cell → Option ℚ
  | Cell.intc n => some n
  | Cell.floatc q => some q
  | _ => none

/-- The Price of dataset row `i` read as a rational (0 when missing),
used to state numeric-order properties of sort outputs. -/
def priceVal (ds : List Row) (i : Nat) : ℚ :=
  ((ds[i]?.bind (fun r => val r "Price")).bind numValue).getD 0

/-!
## Test fixtures (concrete datasets used by the scenario claims)
-/

/-- Scenario A dataset: five rows with Prices
[100000, 250000, 99000, 400000, 250000]. -/
def dsA : List Row :=
  [[("Price", Cell.intc 100000)], [("Price", Cell.intc 250000)],
   [("Price", Cell.intc 99000)], [("Price", Cell.intc 400000)],
   [("Price", Cell.intc 250000)]]

/-- Scenario B dataset: City values
["Springfield", "Chicago", "Colorado Springs", "NYC"]. -/
def dsB : List Row :=
  [[("City", Cell.strc "Springfield")], [("City", Cell.strc "Chicago")],
   [("City", Cell.strc "Colorado Springs")], [("City", Cell.strc "NYC")]]

/-- Two rows whose Prices (99000 and 100000) have display strings whose
lexicographic order disagrees with their numeric order. -/
def dsLex : List Row :=
  [[("Price", Cell.intc 99000)], [("Price", Cell.intc 100000)]]

/-- Scenario E dataset: three rows with equal-width Prices
[200000, 500000, 300000]. -/
def dsE : List Row :=
  [[("Price", Cell.intc 200000)], [("Price", Cell.intc 500000)],
   [("Price", Cell.intc 300000)]]

/-- A fully populated listing row with valid coordinates. -/
def rowGood : Row :=
  [("Address", Cell.strc "1 Main St"), ("City", Cell.strc "Springfield"),
   ("State", Cell.strc "IL"), ("Zip Code", Cell.intc 62701),
   ("Price", Cell.intc 250000), ("Beds", Cell.intc 3), ("Baths", Cell.intc 2),
   ("Living Space", Cell.intc 1500), ("Latitude", Cell.floatc 40),
   ("Longitude", Cell.floatc (-90))]

/-- A listing row whose Latitude is the unparseable text "abc" (Scenario C). -/
def rowBadLat : Row :=
  [("Address", Cell.strc "2 Oak St"), ("City", Cell.strc "Chicago"),
   ("State", Cell.strc "IL"), ("Zip Code", Cell.intc 60601),
   ("Price", Cell.intc 300000), ("Beds", Cell.intc 2), ("Baths", Cell.intc 1),
   ("Living Space", Cell.intc 900), ("Latitude", Cell.strc "abc"),
   ("Longitude", Cell.floatc (-88))]

/-!
## Helper lemmas
-/

/-- A value that triggers the fail-open path of a numeric predicate: the
column is absent (`None`), the cell is NaN, or the cell is a string. -/
def failOpenValue (v : Option Cell) : Prop :=
  v = none ∨ v = some Cell.nan ∨ ∃ s, v = some (Cell.strc s)

theorem rangeCheck_failOpen (v : Option Cell) (mn mx : Option ℚ)
    (h : failOpenValue v) : rangeCheck v mn mx = true := by
  rcases h with h | h | ⟨s, h⟩ <;> subst h
  · rfl
  · rcases mn with _ | m <;> rcases mx with _ | M <;>
      simp [rangeCheck, isNumericCell, cellLt, cellGt]
  · simp [rangeCheck, isNumericCell]

theorem rangeCheck_none_none (v : Option Cell) : rangeCheck v none none = true := by
  rcases v with _ | c
  · rfl
  · cases c <;> rfl

theorem textSubstrCheck_empty (v : Option Cell) : textSubstrCheck v "" = true := by
  simp [textSubstrCheck]

theorem exactCheck_empty (v : Option Cell) : exactCheck v "" = true := by
  simp [exactCheck]

theorem pyStrOr_strc (s : String) : pyStrOr (some (Cell.strc s)) = s := by
  by_cases h : s = "" <;> simp [pyStrOr, pyStr, pyTruthy, h]

theorem filterAcceptsRow_noFilter (r : Row) : filterAcceptsRow noFilter r = true := by
  simp [filterAcceptsRow, noFilter, rangeCheck_none_none, textSubstrCheck_empty,
    exactCheck_empty]

theorem visibleRows_noFilter (ds : List Row) :
    visibleRows noFilter ds = List.range ds.length := by
  unfold visibleRows
  apply List.filter_eq_self.mpr
  intro i hi
  rw [List.mem_range] at hi
  simp only [List.getElem?_eq_getElem hi]
  exact filterAcceptsRow_noFilter _

/-!
## Claim theorems
-/

/-- C1: every numeric range predicate is fail-open — when the column is
absent, or the row's value is NaN or a non-numeric string, the predicate
accepts the row; consequently acceptance of such a row is decided by the
text filters alone, so missing/unparseable numeric data never excludes a
row. -/
theorem claim_C1 :
    (∀ (v : Option Cell) (mn mx : Option ℚ), failOpenValue v →
      rangeCheck v mn mx = true) ∧
    (∀ (fs : FilterState) (r : Row),
      failOpenValue (val r "Price") → failOpenValue (val r "Living Space") →
      failOpenValue (val r "Beds") →
      failOpenValue (val r "Median Household Income") →
      filterAcceptsRow fs r =
        (textSubstrCheck (val r "City") fs.city_substr &&
         exactCheck (val r "State") fs.state_exact &&
         textSubstrCheck (val r "Address") fs.search_text)) := by
  refine ⟨rangeCheck_failOpen, ?_⟩
  intro fs r h1 h2 h3 h4
  unfold filterAcceptsRow
  rw [rangeCheck_failOpen _ _ _ h1, rangeCheck_failOpen _ _ _ h2,
    rangeCheck_failOpen _ _ _ h3, rangeCheck_failOpen _ _ _ h4]
  simp [Bool.and_assoc]

/-- Witness for C1 at a concrete row whose Price is the string "oops" and
whose other numeric columns are absent. -/
theorem claim_C1_witness :
    rangeCheck (some Cell.nan) (some 100000) none = true ∧
    filterAcceptsRow { noFilter with min_price := some 100000 }
        [("Price", Cell.strc "oops"), ("City", Cell.strc "Springfield")] =
      (textSubstrCheck (val [("Price", Cell.strc "oops"), ("City", Cell.strc "Springfield")] "City")
          ({ noFilter with min_price := some 100000 } : FilterState).city_substr &&
       exactCheck (val [("Price", Cell.strc "oops"), ("City", Cell.strc "Springfield")] "State")
          ({ noFilter with min_price := some 100000 } : FilterState).state_exact &&
       textSubstrCheck (val [("Price", Cell.strc "oops"), ("City", Cell.strc "Springfield")] "Address")
          ({ noFilter with min_price := some 100000 } : FilterState).search_text) :=
  ⟨claim_C1.1 (some Cell.nan) (some 100000) none (Or.inr (Or.inl rfl)),
   claim_C1.2 _ _ (Or.inr (Or.inr ⟨"oops", rfl⟩)) (Or.inl rfl) (Or.inl rfl) (Or.inl rfl)⟩

/-- C3: the render-time sampling of `generate_map` is deterministic — the
seed is fixed at 42, so the selection is independent of the ambient
generator state, and when `0 < n < |visible|` exactly `n` rows are
selected; two runs on the identical visible set select identical indices. -/
theorem claim_C3 : ∀ (g1 g2 n : Nat) (vis : List Nat), 0 < n → n < vis.length →
    generateMapSelect g1 n vis = generateMapSelect g2 n vis ∧
    (generateMapSelect g1 n vis).length = n := by
  intro g1 g2 n vis h1 h2
  constructor
  · unfold generateMapSelect
    rw [if_pos ⟨h1, h2⟩, if_pos ⟨h1, h2⟩]
    rfl
  · unfold generateMapSelect pdSample
    rw [if_pos ⟨h1, h2⟩]
    simp only [List.length_map, List.length_take, List.length_insertionSort,
      List.length_range, sampleOrder]
    omega

/-- Witness for C3: sampling 2 of 5 visible rows under two different ambient
generator states. -/
theorem claim_C3_witness :
    generateMapSelect 0 2 [10, 20, 30, 40, 50] =
      generateMapSelect 999 2 [10, 20, 30, 40, 50] ∧
    (generateMapSelect 0 2 [10, 20, 30, 40, 50]).length = 2 :=
  claim_C3 0 999 2 [10, 20, 30, 40, 50] (by decide) (by decide)

/-- C4: a zero bound is pushed to the proxy as `None` (unset) by
`_on_filters_changed`, and with every spin box at 0 and every text filter
empty the resulting filter state accepts every row, so the VisibleRowSet is
the full index range in original order. -/
theorem claim_C4 :
    (∀ u : UIFilters,
      (u.min_price = 0 → (onFiltersChanged u).min_price = none) ∧
      (u.max_price = 0 → (onFiltersChanged u).max_price = none) ∧
      (u.min_space = 0 → (onFiltersChanged u).min_space = none) ∧
      (u.max_space = 0 → (onFiltersChanged u).max_space = none) ∧
      (u.min_beds = 0 → (onFiltersChanged u).min_beds = none) ∧
      (u.max_beds = 0 → (onFiltersChanged u).max_beds = none) ∧
      (u.min_income = 0 → (onFiltersChanged u).min_income = none) ∧
      (u.max_income = 0 → (onFiltersChanged u).max_income = none)) ∧
    onFiltersChanged resetUI = noFilter ∧
    (∀ ds : List Row,
      visibleRows (onFiltersChanged resetUI) ds = List.range ds.length) := by
  have hz : onFiltersChanged resetUI = noFilter := by decide
  refine ⟨?_, hz, ?_⟩
  · intro u
    refine ⟨?_, ?_, ?_, ?_, ?_, ?_, ?_, ?_⟩ <;> intro h <;>
      simp [onFiltersChanged, pyOrNone, zeroFix, h]
  · intro ds
    rw [hz]
    exact visibleRows_noFilter ds

/-- Witness for C4: the zero-bound instances at the reset widget state, and
the full-range VisibleRowSet over Scenario A's dataset. -/
theorem claim_C4_witness :
    (onFiltersChanged resetUI).min_price = none ∧
    (onFiltersChanged resetUI).max_price = none ∧
    visibleRows (onFiltersChanged resetUI) dsA = List.range dsA.length :=
  ⟨(claim_C4.1 resetUI).1 rfl, (claim_C4.1 resetUI).2.1 rfl, claim_C4.2.2 dsA⟩

/-- C8: with an empty visible row set, or a dataset lacking the Latitude or
Longitude column, `update_map` returns normally with a valid empty map
centered on the continental-USA default (39.5, −98.35) at the default
zoom. -/
theorem claim_C8 : ∀ (cols : List String) (rows : List Row),
    rows = [] ∨ cols.contains "Latitude" = false ∨ cols.contains "Longitude" = false →
    updateMap cols rows =
      some ⟨39.5, -98.35, 4, "CartoDB positron", []⟩ := by
  intro cols rows h
  have hc : (rows.isEmpty ||
      !(cols.contains "Latitude" && cols.contains "Longitude")) = true := by
    rcases h with h | h | h
    · subst h; rfl
    · rw [h]; simp
    · rw [h]; simp
  unfold updateMap
  rw [if_pos hc]
  rfl

/-- Witness for C8: an empty row set, and a nonempty row set over a dataset
without coordinate columns. -/
theorem claim_C8_witness :
    updateMap ["Price", "Latitude", "Longitude"] [] =
      some ⟨39.5, -98.35, 4, "CartoDB positron", []⟩ ∧
    updateMap ["Price", "City"] [rowGood] =
      some ⟨39.5, -98.35, 4, "CartoDB positron", []⟩ :=
  ⟨claim_C8 _ _ (Or.inl rfl), claim_C8 _ _ (Or.inr (Or.inl (by decide)))⟩

/-- C10: a NaN cell in a text column stringifies to the literal "nan"
(`str(nan or "")` — NaN is truthy), so a non-empty needle accepts the row
exactly when it is contained case-insensitively in "nan" (e.g. "na" and
"an" accept, "spring" excludes), and the exact State predicate accepts
exactly the literal "nan". -/
theorem claim_C10 :
    pyStrOr (some Cell.nan) = "nan" ∧
    (∀ needle : String, needle ≠ "" →
      textSubstrCheck (some Cell.nan) needle = containsCI "nan" needle) ∧
    (∀ lit : String, lit ≠ "" →
      exactCheck (some Cell.nan) lit = ("nan" == lit)) ∧
    textSubstrCheck (some Cell.nan) "na" = true ∧
    textSubstrCheck (some Cell.nan) "an" = true ∧
    textSubstrCheck (some Cell.nan) "spring" = false ∧
    filterAcceptsRow { noFilter with city_substr := "an" } [("City", Cell.nan)] = true ∧
    filterAcceptsRow { noFilter with city_substr := "spring" } [("City", Cell.nan)] = false := by
  refine ⟨rfl, ?_, ?_, by decide, by decide, by decide, by decide, by decide⟩
  · intro needle h
    unfold textSubstrCheck
    rw [if_neg h]
    exact rfl
  · intro lit h
    unfold exactCheck
    rw [if_neg h]
    exact rfl

/-- Witness for C10 at the needle "an" and exact literal "nan". -/
theorem claim_C10_witness :
    textSubstrCheck (some Cell.nan) "an" = containsCI "nan" "an" ∧
    exactCheck (some Cell.nan) "nan" = ("nan" == "nan") :=
  ⟨claim_C10.2.1 "an" (by decide), claim_C10.2.2.1 "nan" (by decide)⟩

/-- C5: both numeric range predicates are inclusive.  In
`filterAcceptsRow`, a numeric value is accepted iff it is at least any set
minimum and at most any set maximum; on Scenario A's five prices with
min_price = 100000 and max_price = 250000, the visible rows are exactly
0, 1 and 4 in original order, in the proxy filter and in the cartography
pandas filter alike. -/
theorem claim_C5 :
    (∀ (c : Cell) (x : ℚ) (mn mx : Option ℚ), numValue c = some x →
      (rangeCheck (some c) mn mx = true ↔
        ((∀ m, mn = some m → m ≤ x) ∧ (∀ m, mx = some m → x ≤ m)))) ∧
    visibleRows { noFilter with min_price := some 100000, max_price := some 250000 }
      dsA = [0, 1, 4] ∧
    filtered_df { noCartoFilter with min_price := 100000, max_price := 250000 }
      dsA = some [[("Price", Cell.intc 100000)], [("Price", Cell.intc 250000)],
        [("Price", Cell.intc 250000)]] := by
  refine ⟨?_, by decide, by decide⟩
  intro c x mn mx hx
  have hnum : isNumericCell c = true := by
    cases c <;> simp_all [numValue, isNumericCell]
  have hlt : ∀ m : ℚ, cellLt c m = decide (x < m) := by
    intro m
    cases c <;> simp_all [numValue, cellLt]
  have hgt : ∀ m : ℚ, cellGt c m = decide (m < x) := by
    intro m
    cases c <;> simp_all [numValue, cellGt]
  rcases mn with _ | m <;> rcases mx with _ | M <;>
    simp [rangeCheck, hnum, hlt, hgt, not_lt]

/-- Witness for C5's inclusivity at the boundary value 250000. -/
theorem claim_C5_witness :
    rangeCheck (some (Cell.intc 250000)) (some 100000) (some 250000) = true ↔
      ((∀ m, (some (100000 : ℚ)) = some m → m ≤ 250000) ∧
       (∀ m, (some (250000 : ℚ)) = some m → (250000 : ℚ) ≤ m)) :=
  claim_C5.1 (Cell.intc 250000) 250000 (some 100000) (some 250000) rfl

/-- C6: the substring predicates are case-insensitive containment over the
stringified value; an empty needle accepts every row; an absent column is
stringified to the empty string, so any non-empty needle excludes the row;
on Scenario B's City values, the needle "spring" matches rows 0 and 2 only,
in the proxy filter and in the cartography pandas filter alike. -/
theorem claim_C6 :
    (∀ v : Option Cell, textSubstrCheck v "" = true) ∧
    (∀ needle : String, needle ≠ "" → textSubstrCheck none needle = false) ∧
    (∀ s needle : String,
      textSubstrCheck (some (Cell.strc s)) needle = (needle == "" || containsCI s needle)) ∧
    visibleRows { noFilter with city_substr := "spring" } dsB = [0, 2] ∧
    filtered_df { noCartoFilter with city := "spring" } dsB =
      some [[("City", Cell.strc "Springfield")],
        [("City", Cell.strc "Colorado Springs")]] := by
  refine ⟨textSubstrCheck_empty, ?_, ?_, by decide, by decide⟩
  · intro needle h
    unfold textSubstrCheck
    rw [if_neg h]
    show subListAux (lowerStr needle) (lowerStr (pyStrOr none)) = false
    have : lowerStr (pyStrOr none) = [] := rfl
    rw [this]
    show (lowerStr needle).isEmpty = false
    rcases hd : needle.data with _ | ⟨c, cs⟩
    · exact absurd (by cases needle; simp_all) h
    · simp [lowerStr, hd]
  · intro s needle
    by_cases h : needle = ""
    · subst h
      simp [textSubstrCheck]
    · unfold textSubstrCheck
      rw [if_neg h, pyStrOr_strc]
      have : (needle == "") = false := by simpa using h
      rw [this, Bool.false_or]

/-- Witness for C6's exclusion by an absent column at the needle "x". -/
theorem claim_C6_witness : textSubstrCheck none "x" = false :=
  claim_C6.2.1 "x" (by decide)

/-- C9: the export is a pure projection — it materializes exactly the rows
of the VisibleRowSet, in VisibleRowSet order: same length, and the k-th
exported record is the dataset record at the k-th visible index; after a
descending Price sort of Scenario E's three rows the export is in strictly
descending price order, matching the sort output exactly. -/
theorem claim_C9 :
    (∀ (ds : List Row) (vis : List Nat), (∀ i ∈ vis, i < ds.length) →
      (exportRows ds vis).length = vis.length ∧
      (∀ k : Nat, (exportRows ds vis)[k]? = vis[k]?.bind (fun i => ds[i]?))) ∧
    qtSortVisible dsE "Price" false [0, 1, 2] = [1, 2, 0] ∧
    exportRows dsE (qtSortVisible dsE "Price" false [0, 1, 2]) =
      [[("Price", Cell.intc 500000)], [("Price", Cell.intc 300000)],
       [("Price", Cell.intc 200000)]] ∧
    List.Sorted (fun a b : ℚ => b < a)
      ((exportRows dsE (qtSortVisible dsE "Price" false [0, 1, 2])).map
        (fun r => ((val r "Price").bind numValue).getD 0)) := by
  refine ⟨?_, by decide, by decide, by decide⟩
  intro ds vis
  induction vis with
  | nil =>
    intro _
    exact ⟨rfl, fun k => by simp [exportRows]⟩
  | cons i t ih =>
    intro h
    have hi : i < ds.length := h i (List.mem_cons_self i t)
    have hr : ds[i]? = some ds[i] := List.getElem?_eq_getElem hi
    have ht := ih (fun j hj => h j (List.mem_cons_of_mem _ hj))
    have hcons : exportRows ds (i :: t) = ds[i] :: exportRows ds t := by
      unfold exportRows
      rw [List.filterMap_cons, hr]
    constructor
    · rw [hcons, List.length_cons, List.length_cons, ht.1]
    · intro k
      rcases k with _ | k
      · rw [hcons]
        simp [hr]
      · rw [hcons]
        simp only [List.getElem?_cons_succ]
        exact ht.2 k

/-- Witness for C9's projection contract over Scenario E's dataset with the
visible indices [2, 0]. -/
theorem claim_C9_witness :
    (exportRows dsE [2, 0]).length = ([2, 0] : List Nat).length ∧
    (∀ k : Nat, (exportRows dsE [2, 0])[k]? =
      ([2, 0] : List Nat)[k]?.bind (fun i => dsE[i]?)) :=
  claim_C9.1 dsE [2, 0] (by decide)

/-- C7 counterexample: `generate_map` is a render invocation with no
`try/except` — on a visible row whose Latitude is the unparseable text
"abc" the marker construction raises, so no markers are emitted at all (the
good row included), refuting "no error is raised and the remaining rows are
still rendered"; the row is nevertheless a member of the VisibleRowSet. -/
theorem claim_C7_counterexample :
    generateMapMarkers [rowGood, rowBadLat] = none ∧
    (val rowBadLat "Latitude").bind parseFloatCell = none ∧
    visibleRows noFilter [rowGood, rowBadLat] = [0, 1] := by
  refine ⟨by decide, by decide, by decide⟩

/-- C7 (amended): in the dynamic-update render path (`update_map`), a row
whose Latitude or Longitude fails `float()` parsing is silently skipped from
the marker loop — deleting it from the input leaves the loop's result
unchanged, so the remaining rows still render — and such a row's membership
in the VisibleRowSet is unaffected, since the filter never reads the
coordinate columns; the on-demand path (`generate_map`) instead aborts the
whole render on such a row. -/
theorem claim_C7 :
    (∀ (l₁ l₂ : List Row) (r : Row),
      ((val r "Latitude").bind parseFloatCell = none ∨
       (val r "Longitude").bind parseFloatCell = none) →
      updateMapLoop (l₁ ++ r :: l₂) = updateMapLoop (l₁ ++ l₂)) ∧
    (∀ (fs : FilterState) (v : Cell) (r : Row),
      filterAcceptsRow fs (("Latitude", v) :: r) = filterAcceptsRow fs r ∧
      filterAcceptsRow fs (("Longitude", v) :: r) = filterAcceptsRow fs r) := by
  constructor
  · intro l₁ l₂ r h
    have hrow : updateMapRow r = some none := by
      unfold updateMapRow
      rcases h with h | h
      · rw [h]
      · rcases hla : (val r "Latitude").bind parseFloatCell with _ | la
        · rfl
        · rw [h]
    induction l₁ with
    | nil =>
      show updateMapLoop (r :: l₂) = updateMapLoop l₂
      simp [updateMapLoop, hrow]
    | cons a l ihl =>
      show updateMapLoop (a :: (l ++ r :: l₂)) = updateMapLoop (a :: (l ++ l₂))
      simp only [updateMapLoop]
      rw [ihl]
  · intro fs v r
    constructor <;>
      simp [filterAcceptsRow, val, List.lookup]

/-- Witness for C7's amended statement: the bad-latitude row is skipped by
the update loop while the good row still renders, and prepending a bad
Latitude cell does not change filter acceptance. -/
theorem claim_C7_witness :
    updateMapLoop ([rowGood] ++ rowBadLat :: []) = updateMapLoop ([rowGood] ++ []) ∧
    filterAcceptsRow noFilter (("Latitude", Cell.strc "abc") :: rowGood) =
      filterAcceptsRow noFilter rowGood :=
  ⟨claim_C7.1 [rowGood] [] rowBadLat (Or.inl (by decide)),
   (claim_C7.2 noFilter (Cell.strc "abc") rowGood).1⟩

/-- A dataset with two rows of equal Price (250000) in different cities,
followed by a cheaper row — the stability fixture of the spec. -/
def dsStable : List Row :=
  [[("Price", Cell.intc 250000), ("City", Cell.strc "Springfield")],
   [("Price", Cell.intc 250000), ("City", Cell.strc "Chicago")],
   [("Price", Cell.intc 100000)]]

/-- C2 counterexample: sorting ascending by Price compares the formatted
display strings lexicographically, not numerically — on the 2-row fixture
with prices [99000, 100000] ("99 000" vs "100 000") the ascending sort
yields [100000, 99000], which is not in nondecreasing numeric order. -/
theorem claim_C2_counterexample :
    qtSortVisible dsLex "Price" true [0, 1] = [1, 0] ∧
    priceVal dsLex 0 < priceVal dsLex 1 ∧
    ¬ List.Sorted (fun i j : Nat => priceVal dsLex i ≤ priceVal dsLex j)
      (qtSortVisible dsLex "Price" true [0, 1]) := by
  refine ⟨by decide, by decide, by decide⟩

/-- C2 (amended): a header-click sort compares the rows' display strings
lexicographically (case-sensitively, by character code) rather than
numerically, and it is stable — for every pair of visible rows with equal
display keys under the chosen column, their tagged entries appear in the
sorted output in pre-sort order, for both sort directions. -/
theorem claim_C2 : ∀ (ds : List Row) (col : String) (asc : Bool) (vis : List Nat)
    (p q : Fin vis.length), p.1 < q.1 →
    dispKey ds col (vis.get p) = dispKey ds col (vis.get q) →
    ∃ i j : Fin (qtSortPairs ds col asc vis).length, i < j ∧
      (qtSortPairs ds col asc vis).get i = (p.1, vis.get p) ∧
      (qtSortPairs ds col asc vis).get j = (q.1, vis.get q) := by
  intro ds col asc vis p q hpq hkey
  have hx : (p.1, vis.get p) ∈ vis.enum := by
    rw [List.mk_mem_enum_iff_getElem?]
    simp [List.getElem?_eq_getElem p.2]
  have hy : (q.1, vis.get q) ∈ vis.enum := by
    rw [List.mk_mem_enum_iff_getElem?]
    simp [List.getElem?_eq_getElem q.2]
  cases asc
  · exact insertionSort_stableRel_stable (fun s t => strLtb t s)
      (fun x => strLtb_irrefl x)
      (fun x y z h1 h2 => strLtb_trans z y x h2 h1)
      (fun x y h1 h2 => strLtb_conn x y h2 h1)
      (fun pr => dispKey ds col pr.2) vis.enum _ _ hx hy hpq hkey
  · exact insertionSort_stableRel_stable strLtb
      strLtb_irrefl strLtb_trans strLtb_conn
      (fun pr => dispKey ds col pr.2) vis.enum _ _ hx hy hpq hkey

/-- Witness for C2's stability on the spec's 3-row fixture with two equal
prices in different cities. -/
theorem claim_C2_witness :
    ∃ i j : Fin (qtSortPairs dsStable "Price" true [0, 1, 2]).length, i < j ∧
      (qtSortPairs dsStable "Price" true [0, 1, 2]).get i =
        (0, ([0, 1, 2] : List Nat).get ⟨0, by decide⟩) ∧
      (qtSortPairs dsStable "Price" true [0, 1, 2]).get j =
        (1, ([0, 1, 2] : List Nat).get ⟨1, by decide⟩) :=
  claim_C2 dsStable "Price" true [0, 1, 2] ⟨0, by decide⟩ ⟨1, by decide⟩
    (by decide) (by decide)
